import Mathlib

/-!
Shallow embedding of the costyrion repository's HTTP service (src/src/main.rs).

The service is an axum application with four routes:
  GET  /              -> handler          (constant greeting)
  POST /resource      -> create_resource  (returns CREATED and a record with id 1337)
  GET  /resource/:id  -> get_resource     (always Ok with name "Costyrion")
  DELETE /resource/:id -> delete_resource (always Ok with a success message)

The handlers read and write no shared state: the MongoDB database handle built
in `main` is never passed to any handler, so every response is a pure function
of the single request.  Machine integers (u64 ids) are modelled as Nat; the
only place the u64 range matters is axum's `Path<u64>` extractor, modelled by
`parseU64` with an explicit bound 2^64.  HTTP status codes are Nat
(200 = OK, 201 = CREATED).
-/

namespace Costyrion

/-- The `Resource` struct of main.rs (lines 14-19): an optional u64 `id`
(serde skips it when `None`) and a `name` string. -/
structure Resource where
  id : Option Nat
  name : String
  deriving DecidableEq, Repr

/-- The root handler (lines 41-43): returns the constant string. -/
def handler : String := "Costyrion!"

/-- `create_resource` (lines 45-52): builds a record with the constant id
1337 and the payload's name, and returns it with `StatusCode::CREATED`
(201).  The payload's own `id` field is ignored. -/
def create_resource (payload : Resource) : Nat × Resource :=
  (201, { id := some 1337, name := payload.name })

/-- `delete_resource` (lines 54-57): unconditionally returns
`Ok(Response::new(...))` (status 200) carrying the formatted message.  The
error branch of the `Result<_, StatusCode>` type is never used. -/
def delete_resource (id : Nat) : Except Nat String :=
  Except.ok ("Resource with id: " ++ toString id ++ " deleted successfully")

/-- `get_resource` (lines 59-66): unconditionally returns `Ok(Json(resource))`
with the requested id and the constant name `"Costyrion"`.  The error branch
of the `Result<_, StatusCode>` type is never used. -/
def get_resource (id : Nat) : Except Nat Resource :=
  Except.ok { id := some id, name := "Costyrion" }

/-- HTTP methods relevant to the routing table of `app`. -/
inductive Method where
  | GET
  | POST
  | DELETE
  | PATCH
  deriving DecidableEq, Repr

/-- The handler a request is dispatched to. -/
inductive Route where
  | root
  | createRes
  | deleteRes (id : Nat)
  | getRes (id : Nat)
  deriving DecidableEq, Repr

/-- A decimal digit character and its value. -/
def decDigit (c : Char) : Option Nat :=
  if 48 ≤ c.toNat ∧ c.toNat ≤ 57 then some (c.toNat - 48) else none

/-- Accumulate decimal digits left to right; any non-digit fails. -/
def parseDecAux : List Char → Nat → Option Nat
  | [], acc => some acc
  | c :: cs, acc =>
    match decDigit c with
    | some d => parseDecAux cs (acc * 10 + d)
    | none => none

/-- Axum's `Path<u64>` extractor: the path segment must be a non-empty
string of decimal digits whose value fits the u64 range (a request whose
segment does not parse never reaches the handler). -/
def parseU64 (s : String) : Option Nat :=
  match s.data with
  | [] => none
  | cs =>
    match parseDecAux cs 0 with
    | some n => if n < 2 ^ 64 then some n else none
    | none => none

/-- The router of `app` (lines 34-39): `/` routes GET to `handler`,
`/resource` routes POST to `create_resource`, and `/resource/:id` routes
DELETE to `delete_resource` and GET to `get_resource`.  A path is its list
of segments (`[]` for `/`).  No other method/path pair is routed. -/
def matchRoute : Method → List String → Option Route
  | Method.GET, [] => some Route.root
  | Method.POST, ["resource"] => some Route.createRes
  | Method.DELETE, ["resource", s] => (parseU64 s).map Route.deleteRes
  | Method.GET, ["resource", s] => (parseU64 s).map Route.getRes
  | _, _ => none

/-- A transport-level response: text or JSON body with a status code, a bare
status, a JSON array (the shape a List endpoint would produce — the service
never produces one), or no matching route at all. -/
inductive HttpResult where
  | text (status : Nat) (body : String)
  | json (status : Nat) (body : Resource)
  | jsonList (status : Nat) (body : List Resource)
  | status (code : Nat)
  | noRoute
  deriving DecidableEq, Repr

/-- The boundary layer: dispatch one request through the router and run the
matched handler.  `body` is the JSON-decoded request body when one was
supplied (`none` models a missing/undecodable body, which axum's `Json`
extractor rejects with 422 before the handler runs). -/
def serve (m : Method) (path : List String) (body : Option Resource) : HttpResult :=
  match matchRoute m path with
  | some Route.root => HttpResult.text 200 handler
  | some Route.createRes =>
    match body with
    | some payload => HttpResult.json (create_resource payload).1 (create_resource payload).2
    | none => HttpResult.status 422
  | some (Route.deleteRes id) =>
    match delete_resource id with
    | Except.ok msg => HttpResult.text 200 msg
    | Except.error s => HttpResult.status s
  | some (Route.getRes id) =>
    match get_resource id with
    | Except.ok r => HttpResult.json 200 r
    | Except.error s => HttpResult.status s
  | none => HttpResult.noRoute

/-- An operation of the CRUD surface, for reasoning about request sequences. -/
inductive Op where
  | create (name : String)
  | read (id : Nat)
  | del (id : Nat)
  deriving DecidableEq, Repr

/-- Run one operation.  The handlers of main.rs consult no store, so the
response is a function of the request alone. -/
def runOp : Op → HttpResult
  | Op.create n => HttpResult.json (create_resource { id := none, name := n }).1
      (create_resource { id := none, name := n }).2
  | Op.read id =>
    match get_resource id with
    | Except.ok r => HttpResult.json 200 r
    | Except.error s => HttpResult.status s
  | Op.del id =>
    match delete_resource id with
    | Except.ok msg => HttpResult.text 200 msg
    | Except.error s => HttpResult.status s

/-- Run a sequence of operations, collecting the responses.  Handlers share
no state, so the responses are independent of each other. -/
def runTrace (ops : List Op) : List HttpResult :=
  ops.map runOp

/-- A JSON scalar as produced for the two fields of `Resource`. -/
inductive JsonVal where
  | num (n : Nat)
  | str (s : String)
  deriving DecidableEq, Repr

/-- The derived serde `Serialize` for `Resource` (lines 14-19): fields in
declaration order, with the `id` field skipped entirely when the option is
`None` (the `skip_serializing_if = "Option::is_none"` attribute). -/
def serializeResource (r : Resource) : List (String × JsonVal) :=
  (match r.id with
    | some n => [("id", JsonVal.num n)]
    | none => []) ++ [("name", JsonVal.str r.name)]

/-- No PATCH request is routed: every row of the routing table of `app`
names GET, POST or DELETE. -/
theorem matchRoute_patch (p : List String) : matchRoute Method.PATCH p = none := by
  rcases p with _ | ⟨a, _ | ⟨b, t⟩⟩ <;> rfl

/-- C1 (counterexample): creating the name "A" yields the record
{1337, "A"}, but reading the returned id 1337 yields {1337, "Costyrion"},
a different record. -/
theorem c1_counterexample :
    create_resource { id := none, name := "A" } =
      (201, { id := some 1337, name := "A" }) ∧
    get_resource 1337 = Except.ok { id := some 1337, name := "Costyrion" } ∧
    (create_resource { id := none, name := "A" }).2 ≠
      { id := some 1337, name := "Costyrion" } := by
  refine ⟨rfl, rfl, ?_⟩
  decide

/-- C1 (amended): Create followed by Read of the returned id yields a record
with the same id 1337, but Read's record always carries the name
"Costyrion", so it equals the created record exactly when the created name
is "Costyrion". -/
theorem c1_create_then_read (payload : Resource) :
    ((create_resource payload).2).id = some 1337 ∧
    get_resource 1337 = Except.ok { id := some 1337, name := "Costyrion" } ∧
    (get_resource 1337 = Except.ok (create_resource payload).2 ↔
      payload.name = "Costyrion") := by
  refine ⟨rfl, rfl, ?_⟩
  simp [get_resource, create_resource, Resource.mk.injEq, eq_comm]

/-- C1 (witness): the amended statement at the payload named "Costyrion". -/
theorem c1_witness :
    ((create_resource { id := none, name := "Costyrion" }).2).id = some 1337 ∧
    get_resource 1337 = Except.ok { id := some 1337, name := "Costyrion" } ∧
    (get_resource 1337 =
        Except.ok (create_resource { id := none, name := "Costyrion" }).2 ↔
      ({ id := none, name := "Costyrion" } : Resource).name = "Costyrion") :=
  c1_create_then_read { id := none, name := "Costyrion" }

/-- C2 (counterexample): with no prior Create at all, reading id 999
returns 200 with a JSON resource, not a 404 status. -/
theorem c2_counterexample :
    runTrace [Op.read 999] =
      [HttpResult.json 200 { id := some 999, name := "Costyrion" }] ∧
    runOp (Op.read 999) ≠ HttpResult.status 404 := by
  refine ⟨rfl, ?_⟩
  decide

/-- C2 (amended): GET /resource/{id} never reports NotFound: for every id
accepted by the u64 path extractor, the response is 200 with the JSON
record {id, "Costyrion"}, whether or not any Create happened before. -/
theorem c2_read_always_succeeds (s : String) (id : Nat)
    (h : parseU64 s = some id) :
    serve Method.GET ["resource", s] none =
      HttpResult.json 200 { id := some id, name := "Costyrion" } := by
  simp [serve, matchRoute, h, get_resource]

/-- C2 (witness): the amended statement at the path segment "999". -/
theorem c2_witness :
    serve Method.GET ["resource", "999"] none =
      HttpResult.json 200 { id := some 999, name := "Costyrion" } :=
  c2_read_always_succeeds "999" 999 (by decide)

/-- C3 (counterexample): deleting id 42 twice returns the 200 success
message both times; the second Delete does not report false or 404. -/
theorem c3_counterexample :
    runTrace [Op.del 42, Op.del 42] =
      [HttpResult.text 200 "Resource with id: 42 deleted successfully",
       HttpResult.text 200 "Resource with id: 42 deleted successfully"] ∧
    runOp (Op.del 42) ≠ HttpResult.status 404 := by
  refine ⟨rfl, ?_⟩
  decide

/-- C3 (amended): DELETE /resource/{id} always returns 200 with the
formatted success message, for every id accepted by the u64 path
extractor; it never reports false or NotFound and removes nothing. -/
theorem c3_delete_always_succeeds (s : String) (id : Nat)
    (h : parseU64 s = some id) :
    serve Method.DELETE ["resource", s] none =
      HttpResult.text 200
        ("Resource with id: " ++ toString id ++ " deleted successfully") := by
  simp [serve, matchRoute, h, delete_resource]

/-- C3 (witness): the amended statement at the path segment "42". -/
theorem c3_witness :
    serve Method.DELETE ["resource", "42"] none =
      HttpResult.text 200
        ("Resource with id: " ++ toString 42 ++ " deleted successfully") :=
  c3_delete_always_succeeds "42" 42 (by decide)

/-- C4 (counterexample): Delete of id 7 succeeds, yet the subsequent Read
of id 7 returns 200 with a resource, not a 404 status. -/
theorem c4_counterexample :
    runTrace [Op.del 7, Op.read 7] =
      [HttpResult.text 200 "Resource with id: 7 deleted successfully",
       HttpResult.json 200 { id := some 7, name := "Costyrion" }] ∧
    runOp (Op.read 7) ≠ HttpResult.status 404 := by
  refine ⟨rfl, ?_⟩
  decide

/-- C4 (amended): after any prior operations, Delete(id) succeeds with the
200 message and the subsequent Read(id) still returns 200 with
{id, "Costyrion"}: successful deletion has no observable effect on Read. -/
theorem c4_read_after_delete (prior : List Op) (id : Nat) :
    runTrace (prior ++ [Op.del id, Op.read id]) =
      runTrace prior ++
        [HttpResult.text 200
          ("Resource with id: " ++ toString id ++ " deleted successfully"),
         HttpResult.json 200 { id := some id, name := "Costyrion" }] := by
  simp [runTrace, runOp, get_resource, delete_resource]

/-- C5 (counterexample): creating "A" and then "B" assigns the identifier
1337 both times (no fresh allocation), and reading the assigned id 1337
does not return the created record (nothing was persisted). -/
theorem c5_counterexample :
    create_resource { id := none, name := "A" } =
      (201, { id := some 1337, name := "A" }) ∧
    create_resource { id := none, name := "B" } =
      (201, { id := some 1337, name := "B" }) ∧
    get_resource 1337 ≠ Except.ok { id := some 1337, name := "A" } := by
  refine ⟨rfl, rfl, ?_⟩
  simp [get_resource]

/-- C5 (amended): POST /resource returns 201 with a record carrying the
constant id 1337 and the request's name; the id is not freshly allocated
(it is the same for every request) and no record is persisted. -/
theorem c5_create_response (payload : Resource) :
    serve Method.POST ["resource"] (some payload) =
      HttpResult.json 201 { id := some 1337, name := payload.name } := by
  simp [serve, matchRoute, create_resource]

/-- C6 (counterexample): the distinct resources created from names "A" and
"B" share the id 1337. -/
theorem c6_counterexample :
    (create_resource { id := none, name := "A" }).2 ≠
      (create_resource { id := none, name := "B" }).2 ∧
    ((create_resource { id := none, name := "A" }).2).id =
      ((create_resource { id := none, name := "B" }).2).id := by
  refine ⟨?_, rfl⟩
  decide

/-- C6 (amended): every Create assigns the same constant id 1337, so any
two created resources share their id; ids do not uniquely identify
resources. -/
theorem c6_constant_id (p q : Resource) :
    ((create_resource p).2).id = some 1337 ∧
    ((create_resource p).2).id = ((create_resource q).2).id :=
  ⟨rfl, rfl⟩

/-- C7 (counterexample): after creating "A", "B", "C" and "D" (each
answered with id 1337 and nothing stored), the List request GET /resource
matches no route at all and in particular does not return the JSON array
[{1337, "C"}]. -/
theorem c7_counterexample :
    runTrace [Op.create "A", Op.create "B", Op.create "C", Op.create "D"] =
      [HttpResult.json 201 { id := some 1337, name := "A" },
       HttpResult.json 201 { id := some 1337, name := "B" },
       HttpResult.json 201 { id := some 1337, name := "C" },
       HttpResult.json 201 { id := some 1337, name := "D" }] ∧
    serve Method.GET ["resource"] none = HttpResult.noRoute ∧
    serve Method.GET ["resource"] none ≠
      HttpResult.jsonList 200 [{ id := some 1337, name := "C" }] := by
  refine ⟨rfl, rfl, ?_⟩
  decide

/-- C7 (amended): the service has no List operation: GET /resource matches
no route (whatever the body), so no offset/limit slicing ever happens and
no sequence of resources is ever returned. -/
theorem c7_no_list_route (body : Option Resource) :
    matchRoute Method.GET ["resource"] = none ∧
    serve Method.GET ["resource"] body = HttpResult.noRoute :=
  ⟨rfl, rfl⟩

/-- C8 (counterexample): the Update request PATCH /resource/5 with payload
name "X" matches no route, and Read(5) returns the name "Costyrion", not
"X". -/
theorem c8_counterexample :
    serve Method.PATCH ["resource", "5"] (some { id := none, name := "X" }) =
      HttpResult.noRoute ∧
    get_resource 5 = Except.ok { id := some 5, name := "Costyrion" } ∧
    ({ id := some 5, name := "Costyrion" } : Resource).name ≠ "X" := by
  refine ⟨rfl, rfl, ?_⟩
  decide

/-- C8 (amended): the service has no Update operation: PATCH /resource/{id}
matches no route for any path segment and body, and Read(id) always
returns the constant name "Costyrion", so no supplied field is ever
overlaid. -/
theorem c8_no_update_route (s : String) (body : Option Resource) (id : Nat) :
    serve Method.PATCH ["resource", s] body = HttpResult.noRoute ∧
    get_resource id = Except.ok { id := some id, name := "Costyrion" } := by
  refine ⟨?_, rfl⟩
  unfold serve
  rw [matchRoute_patch]

/-- C9: JSON serialization of a Resource omits the "id" field entirely when
`id` is `none`, and includes it (with the name field) when `id` is
present. -/
theorem c9_id_field_presence (r : Resource) :
    (r.id = none → ¬ ("id" ∈ (serializeResource r).map Prod.fst)) ∧
    (∀ n, r.id = some n →
      ("id", JsonVal.num n) ∈ serializeResource r ∧
      ("name", JsonVal.str r.name) ∈ serializeResource r) := by
  constructor
  · intro h
    simp [serializeResource, h]
  · intro n h
    simp [serializeResource, h]

/-- C9 (witness): the statement at the concrete resources {none, "x"} and
{some 7, "x"}. -/
theorem c9_witness :
    (¬ ("id" ∈ (serializeResource { id := none, name := "x" }).map Prod.fst)) ∧
    ("id", JsonVal.num 7) ∈ serializeResource { id := some 7, name := "x" } :=
  ⟨(c9_id_field_presence { id := none, name := "x" }).1 rfl,
   ((c9_id_field_presence { id := some 7, name := "x" }).2 7 rfl).1⟩

/-- C10: the Read handler is total and constant in everything but the
requested id: whatever operations ran before, GET /resource/{id} returns
the Ok branch with the record {id, "Costyrion"}; the StatusCode error
branch is never taken. -/
theorem c10_read_total (prior : List Op) (id : Nat) :
    get_resource id = Except.ok { id := some id, name := "Costyrion" } ∧
    runTrace (prior ++ [Op.read id]) =
      runTrace prior ++
        [HttpResult.json 200 { id := some id, name := "Costyrion" }] := by
  refine ⟨rfl, ?_⟩
  simp [runTrace, runOp, get_resource]

end Costyrion
